import Mathlib

/-!
Verification of the oura-py client library (request/response pipeline and
summary-fetch protocol) against its natural-language specification.

The Python source is embedded shallowly:
  - JSON values are an inductive type; Python json produces distinct int and
    float numbers, modelled by intNum (Int) and floatNum (Rat).
  - a completed HTTP response carries its status code, reason phrase, raw text
    and the outcome of parsing the text as JSON (none when the body is not
    valid JSON); the JSON parser itself is not re-implemented.
  - exceptions become an error inductive; raising becomes Except.error.
  - one outbound transport call is modelled by a TransportOutcome value that
    is either a completed response or a raised transport exception.
-/

/-- JSON values as produced by json decoding in Python. Integral numbers decode
to int (intNum), non-integral to float (floatNum, modelled exactly by Rat). -/
inductive JsonValue where
  | null : JsonValue
  | bool (b : Bool) : JsonValue
  | intNum (n : Int) : JsonValue
  | floatNum (q : Rat) : JsonValue
  | str (s : String) : JsonValue
  | arr (items : List JsonValue) : JsonValue
  | obj (fields : List (String × JsonValue)) : JsonValue

/-- Python truthiness of a JSON value: None, False, 0, 0.0, the empty string,
the empty list and the empty dict are falsy, everything else truthy. -/
def JsonValue.truthy : JsonValue → Bool
  | .null => false
  | .bool b => b
  | .intNum n => n != 0
  | .floatNum q => q != 0
  | .str s => s != ""
  | .arr items => !items.isEmpty
  | .obj fields => !fields.isEmpty

/-- Python exceptions raised by the embedded code. ouraPyException is the
single library exception class OuraPyException (its classifications are
distinguished only by message); typeError, valueError and attributeError are
the built-ins; httpError is requests.exceptions.HTTPError as raised by
raise_for_status; requestsException is requests.exceptions.RequestException,
the transport-level exception of the requests library. -/
inductive PyError where
  | ouraPyException (msg : String) : PyError
  | typeError (msg : String) : PyError
  | valueError (msg : String) : PyError
  | attributeError (msg : String) : PyError
  | httpError (status : Nat) (msg : String) : PyError
  | requestsException (msg : String) : PyError
deriving DecidableEq

/-- Classification used by the specification: an invalid-argument failure is a
call-time input error raised before any network activity (the built-in
TypeError and ValueError raised by the adapter's argument checks). -/
def PyError.invalidArgument : PyError → Bool
  | .typeError _ => true
  | .valueError _ => true
  | _ => false

/-- A completed HTTP response as seen by the client: status code, reason
phrase, body text, and the result of parsing the body as JSON (response.json()
succeeds with that value iff the field is some). -/
structure HttpResponse where
  status_code : Nat
  reason : String
  text : String
  json : Option JsonValue

/-- Outcome of one outbound transport call of the requests library: either a
completed response or a raised transport exception (DNS, connection refused,
timeout, TLS failure), carried with its message. -/
inductive TransportOutcome where
  | ok (response : HttpResponse) : TransportOutcome
  | exn (msg : String) : TransportOutcome

/-- Result of models.py. The constructor coerces status_code with int and
message with str (identities here) and replaces a falsy data argument by the
empty list: self.data = data if data else []. -/
structure Result where
  status_code : Int
  message : String
  data : JsonValue

/-- Embeds Result.__init__ of models.py, data defaulting to None. -/
def Result.init (status_code : Int) (message : String) (data : Option JsonValue) : Result :=
  { status_code := status_code
    message := message
    data := match data with
      | some d => if d.truthy then d else .arr []
      | none => .arr [] }

/-- Embeds OuraClient._request of oura_client.py, given the outcome of the one
requests.request call it makes. A raised transport exception is caught and
re-raised as OuraPyException (Error making request); then the body is parsed
as JSON, failure raising OuraPyException (Bad JSON in response); then
req_success = 299 >= status_code >= 200 decides between returning a Result and
raising OuraPyException with message status_code: reason. URL building and
logging do not affect the returned value and are omitted. -/
def OuraClient.request (transport : TransportOutcome) : Except PyError Result :=
  match transport with
  | .exn _ => .error (.ouraPyException "Error making request")
  | .ok response =>
    match response.json with
    | none => .error (.ouraPyException "Bad JSON in response")
    | some data_out =>
      if 299 ≥ response.status_code ∧ response.status_code ≥ 200 then
        .ok (Result.init (Int.ofNat response.status_code) response.reason (some data_out))
      else
        .error (.ouraPyException (toString response.status_code ++ ": " ++ response.reason))

/-- Embeds RequestManager._request of helpers.py; its body is identical to
OuraClient._request of oura_client.py apart from a log format string. -/
def RequestManager.request (transport : TransportOutcome) : Except PyError Result :=
  match transport with
  | .exn _ => .error (.ouraPyException "Error making request")
  | .ok response =>
    match response.json with
    | none => .error (.ouraPyException "Bad JSON in response")
    | some data_out =>
      if 299 ≥ response.status_code ∧ response.status_code ≥ 200 then
        .ok (Result.init (Int.ofNat response.status_code) response.reason (some data_out))
      else
        .error (.ouraPyException (toString response.status_code ++ ": " ++ response.reason))

/-- Embeds a call of the adapter: the result of
PersonalTokenRequestHandler.make_request together with the number of network
calls the invocation performed. -/
structure AdapterCall where
  result : Except PyError HttpResponse
  network_calls : Nat

/-- Keyword parameter names accepted by
PersonalTokenRequestHandler.make_request, read off its definition line in
auth.py: def make_request(self, url, method = GET). There is no params
parameter and no catch-all keyword parameter. -/
def PersonalTokenRequestHandler.make_request_keyword_names : List String :=
  ["url", "method"]

/-- Embeds PersonalTokenRequestHandler.make_request of auth.py, given the
outcome of the one transport call (requests.get or requests.post) it would
perform. An empty url raises TypeError (URL is required) before any network
activity; a method other than GET or POST raises ValueError before any network
activity; otherwise the transport call is made: a transport exception
propagates unchanged (the source has no try/except), and on a completed
response raise_for_status raises HTTPError when the status code is in
400..599, the response being returned otherwise. -/
def PersonalTokenRequestHandler.make_request (url : String) (method : String)
    (transport : TransportOutcome) : AdapterCall :=
  if url = "" then
    { result := .error (.typeError "URL is required"), network_calls := 0 }
  else if method ∉ (["GET", "POST"] : List String) then
    { result := .error (.valueError "Method must be GET or POST"), network_calls := 0 }
  else
    match transport with
    | .exn msg => { result := .error (.requestsException msg), network_calls := 1 }
    | .ok response =>
      if 400 ≤ response.status_code ∧ response.status_code ≤ 599 then
        { result := .error (.httpError response.status_code "raise_for_status"),
          network_calls := 1 }
      else
        { result := .ok response, network_calls := 1 }

/-- The base collection URL OuraClient.URL_BASE of oura_client.py. -/
def OuraClient.URL_BASE : String := "https://api.ouraring.com/v2/usercollection/"

/-- Instance attribute names assigned by OuraClient.__init__ of
oura_client.py. The handler is stored under the name _handler; no attribute
named handler is ever assigned. -/
def OuraClient.instance_attribute_names : List String :=
  ["url", "_personal_access_token", "_handler", "_ssl_verify", "_logger"]

/-- Python attribute lookup on an OuraClient instance: reading an attribute
the constructor assigned succeeds, any other name raises AttributeError. -/
def OuraClient.getattr (name : String) : Except PyError Unit :=
  if name ∈ OuraClient.instance_attribute_names then .ok ()
  else .error (.attributeError ("OuraClient object has no attribute " ++ name))

/-- Embeds OuraClient.client_request of oura_client.py, which evaluates
self.handler.make_request(url, params=params) and returns response.text.
Evaluation order follows Python: first the attribute lookup self.handler
(which raises AttributeError, since __init__ assigns _handler), then — were a
handler attribute present — the call itself, which would raise TypeError
because make_request declares no params keyword parameter. The pair also
counts the network calls performed. -/
def OuraClient.client_request (transport : TransportOutcome) (url : String)
    (params : List (String × String)) : Except PyError String × Nat :=
  match OuraClient.getattr "handler" with
  | .error e => (.error e, 0)
  | .ok _ =>
    if "params" ∈ PersonalTokenRequestHandler.make_request_keyword_names then
      let call := PersonalTokenRequestHandler.make_request url "GET" transport
      (call.result.map HttpResponse.text, call.network_calls)
    else
      (.error (.typeError "make_request got an unexpected keyword argument params"), 0)

/-- Embeds OuraClient.build_start_end_params of oura_client.py: starting from
an empty dict, insert start_date when it is not None, then end_date when it is
not None. The isinstance guards (which raise ValueError for a non-string
argument) cannot fire for the string-typed inputs modelled here; no other
check — in particular no chronological comparison — is performed. -/
def OuraClient.build_start_end_params (start_date end_date : Option String) :
    Except PyError (List (String × String)) :=
  match start_date, end_date with
  | some s, some e => .ok [("start_date", s), ("end_date", e)]
  | some s, none => .ok [("start_date", s)]
  | none, some e => .ok [("end_date", e)]
  | none, none => .ok []

/-- Python truthiness of an optional string argument: None and the empty
string are falsy. -/
def pyTruthyOptStr : Option String → Bool
  | some s => s != ""
  | none => false

/-- The routing step shared verbatim by every summary accessor of
oura_client.py: if document_id is truthy, target URL_BASE ++ resource ++ / ++
document_id with client_request's default empty params; otherwise target
URL_BASE ++ resource with the params built by build_start_end_params. Returns
the url and params handed to client_request. -/
def OuraClient.summary_route (resource : String)
    (start_date end_date document_id : Option String) :
    Except PyError (String × List (String × String)) :=
  if pyTruthyOptStr document_id then
    .ok (OuraClient.URL_BASE ++ resource ++ "/" ++ document_id.getD "", [])
  else
    match OuraClient.build_start_end_params start_date end_date with
    | .ok params => .ok (OuraClient.URL_BASE ++ resource, params)
    | .error e => .error e

/-- A full summary accessor call: route, then client_request. Every get_daily
style accessor of oura_client.py is this function at its resource name. -/
def OuraClient.summary_fetch (resource : String) (transport : TransportOutcome)
    (start_date end_date document_id : Option String) : Except PyError String × Nat :=
  match OuraClient.summary_route resource start_date end_date document_id with
  | .ok p => OuraClient.client_request transport p.1 p.2
  | .error e => (.error e, 0)

/-- Embeds OuraClient.get_daily_activity of oura_client.py. -/
def OuraClient.get_daily_activity (transport : TransportOutcome)
    (start_date end_date document_id : Option String) : Except PyError String × Nat :=
  OuraClient.summary_fetch "daily_activity" transport start_date end_date document_id

/-- Embeds OuraClient.get_daily_readiness of oura_client.py. -/
def OuraClient.get_daily_readiness (transport : TransportOutcome)
    (start_date end_date document_id : Option String) : Except PyError String × Nat :=
  OuraClient.summary_fetch "daily_readiness" transport start_date end_date document_id

/-- Embeds OuraClient.get_daily_sleep of oura_client.py. -/
def OuraClient.get_daily_sleep (transport : TransportOutcome)
    (start_date end_date document_id : Option String) : Except PyError String × Nat :=
  OuraClient.summary_fetch "daily_sleep" transport start_date end_date document_id

/-- Embeds OuraClient.get_daily_resilience of oura_client.py. -/
def OuraClient.get_daily_resilience (transport : TransportOutcome)
    (start_date end_date document_id : Option String) : Except PyError String × Nat :=
  OuraClient.summary_fetch "daily_resilience" transport start_date end_date document_id

/-- Embeds OuraClient.get_daily_spo2 of oura_client.py. -/
def OuraClient.get_daily_spo2 (transport : TransportOutcome)
    (start_date end_date document_id : Option String) : Except PyError String × Nat :=
  OuraClient.summary_fetch "daily_spo2" transport start_date end_date document_id

/-- Embeds OuraClient.get_daily_stress of oura_client.py. -/
def OuraClient.get_daily_stress (transport : TransportOutcome)
    (start_date end_date document_id : Option String) : Except PyError String × Nat :=
  OuraClient.summary_fetch "daily_stress" transport start_date end_date document_id

/-- Embeds OuraClient.get_enhanced_tags of oura_client.py. -/
def OuraClient.get_enhanced_tags (transport : TransportOutcome)
    (start_date end_date document_id : Option String) : Except PyError String × Nat :=
  OuraClient.summary_fetch "enhanced_tag" transport start_date end_date document_id

/-- Embeds OuraClient.get_heart_rate of oura_client.py. -/
def OuraClient.get_heart_rate (transport : TransportOutcome)
    (start_date end_date document_id : Option String) : Except PyError String × Nat :=
  OuraClient.summary_fetch "heartrate" transport start_date end_date document_id

/-- Embeds OuraClient.get_rest_mode_periods of oura_client.py. -/
def OuraClient.get_rest_mode_periods (transport : TransportOutcome)
    (start_date end_date document_id : Option String) : Except PyError String × Nat :=
  OuraClient.summary_fetch "rest_mode_period" transport start_date end_date document_id

/-- Embeds OuraClient.get_sessions of oura_client.py. -/
def OuraClient.get_sessions (transport : TransportOutcome)
    (start_date end_date document_id : Option String) : Except PyError String × Nat :=
  OuraClient.summary_fetch "session" transport start_date end_date document_id

/-- Embeds OuraClient.get_sleep_detail of oura_client.py. -/
def OuraClient.get_sleep_detail (transport : TransportOutcome)
    (start_date end_date document_id : Option String) : Except PyError String × Nat :=
  OuraClient.summary_fetch "sleep" transport start_date end_date document_id

/-- Embeds OuraClient.get_bedtimes of oura_client.py. -/
def OuraClient.get_bedtimes (transport : TransportOutcome)
    (start_date end_date document_id : Option String) : Except PyError String × Nat :=
  OuraClient.summary_fetch "sleep_time" transport start_date end_date document_id

/-- Embeds OuraClient.get_vo2_max of oura_client.py. -/
def OuraClient.get_vo2_max (transport : TransportOutcome)
    (start_date end_date document_id : Option String) : Except PyError String × Nat :=
  OuraClient.summary_fetch "vO2_max" transport start_date end_date document_id

/-- Embeds OuraClient.get_workouts of oura_client.py. -/
def OuraClient.get_workouts (transport : TransportOutcome)
    (start_date end_date document_id : Option String) : Except PyError String × Nat :=
  OuraClient.summary_fetch "workout" transport start_date end_date document_id

/-- Embeds OuraClient.get_ring_config of oura_client.py: client_request on
URL_BASE ++ ring_configuration with the default empty params. -/
def OuraClient.get_ring_config (transport : TransportOutcome) : Except PyError String × Nat :=
  OuraClient.client_request transport (OuraClient.URL_BASE ++ "ring_configuration") []

/-- Python str() applied to a JSON value. str of a str is the string itself;
numbers, booleans and None render as in Python. The renderings of list and
dict values are not reproduced (no claim evaluates them). -/
def pyStr : JsonValue → String
  | .str s => s
  | .intNum n => toString n
  | .floatNum q => toString q
  | .bool b => if b then "True" else "False"
  | .null => "None"
  | .arr _ => ""
  | .obj _ => ""

/-- Python int() applied to a JSON value: identity on int, truncation toward
zero on float, 1 or 0 on bool, decimal parse on str (ValueError when the
string is not an integer literal), TypeError otherwise. -/
def pyInt : JsonValue → Except PyError Int
  | .intNum n => .ok n
  | .floatNum q => .ok (Int.tdiv q.num q.den)
  | .bool b => .ok (if b then 1 else 0)
  | .str s =>
    match s.toInt? with
    | some n => .ok n
    | none => .error (.valueError ("invalid literal for int: " ++ s))
  | _ => .error (.typeError "int argument must be a number")

/-- Python float() applied to a JSON value: numbers and booleans convert;
other shapes are not needed by any claim and raise here. -/
def pyFloat : JsonValue → Except PyError Rat
  | .intNum n => .ok n
  | .floatNum q => .ok q
  | .bool b => .ok (if b then 1 else 0)
  | _ => .error (.typeError "float argument must be a number")

/-- PersonalInfo of models.py. Its __init__ stores str(id), int(age),
float(weight), float(height), str(biological_sex) under the name sex, and
str(email). -/
structure PersonalInfo where
  id : String
  age : Int
  weight : Rat
  height : Rat
  sex : String
  email : String

/-- Embeds the call PersonalInfo(**kwargs): the keyword names must be exactly
the six declared parameters of PersonalInfo.__init__ (an unknown name or a
missing required argument raises TypeError), then the body's coercions run in
declaration order. -/
def PersonalInfo.ofKwargs (kwargs : List (String × JsonValue)) : Except PyError PersonalInfo :=
  let names : List String := ["id", "age", "weight", "height", "biological_sex", "email"]
  if kwargs.any (fun kv => !(names.contains kv.1)) then
    .error (.typeError "PersonalInfo got an unexpected keyword argument")
  else
    match kwargs.lookup "id", kwargs.lookup "age", kwargs.lookup "weight",
        kwargs.lookup "height", kwargs.lookup "biological_sex", kwargs.lookup "email" with
    | some idv, some agev, some weightv, some heightv, some sexv, some emailv =>
      match pyInt agev with
      | .error e => .error e
      | .ok age =>
        match pyFloat weightv with
        | .error e => .error e
        | .ok weight =>
          match pyFloat heightv with
          | .error e => .error e
          | .ok height =>
            .ok { id := pyStr idv, age := age, weight := weight, height := height,
                  sex := pyStr sexv, email := pyStr emailv }
    | _, _, _, _, _, _ => .error (.typeError "PersonalInfo missing a required argument")

/-- Embeds the argument unpacking PersonalInfo(**result.data): the unpacked
value must be a mapping. -/
def jsonKwargs : JsonValue → Except PyError (List (String × JsonValue))
  | .obj fields => .ok fields
  | _ => .error (.typeError "argument after ** must be a mapping")

/-- Embeds OuraClient.get_personal_info of oura_client.py: result =
self.get(personal_info) through _request, then data = PersonalInfo(**result.data),
then print(data); the function body has no return statement, so the call
returns None (modelled as ok none) even though a PersonalInfo was constructed. -/
def OuraClient.get_personal_info (transport : TransportOutcome) :
    Except PyError (Option PersonalInfo) :=
  match OuraClient.request transport with
  | .error e => .error e
  | .ok result =>
    match jsonKwargs result.data with
    | .error e => .error e
    | .ok kwargs =>
      match PersonalInfo.ofKwargs kwargs with
      | .error e => .error e
      | .ok _data => .ok none

/-- The decoded JSON fields of the personal-info stub body used in the
end-to-end scenario of the specification. -/
def personalInfoStubFields : List (String × JsonValue) :=
  [("id", .str "u1"), ("age", .intNum 30), ("weight", .floatNum (141 / 2)),
   ("height", .floatNum (9 / 5)), ("biological_sex", .str "male"),
   ("email", .str "a@b.com")]

/-- The personal-info stub response: status 200, reason OK, body decoding to
the stub fields. -/
def personalInfoStubResponse : HttpResponse :=
  { status_code := 200, reason := "OK",
    text := "personal info body", json := some (.obj personalInfoStubFields) }

/-- Reading any attribute other than those assigned by __init__ fails; in
particular client_request always raises AttributeError on self.handler before
doing anything else, performing zero network calls. -/
theorem OuraClient.client_request_attr_error (t : TransportOutcome) (url : String)
    (params : List (String × String)) :
    OuraClient.client_request t url params =
      (.error (.attributeError "OuraClient object has no attribute handler"), 0) := rfl

/-- The routing step of a summary accessor never fails for string-typed
arguments. -/
theorem OuraClient.summary_route_ok (resource : String) (s e d : Option String) :
    ∃ p, OuraClient.summary_route resource s e d = .ok p := by
  unfold OuraClient.summary_route
  split
  · exact ⟨_, rfl⟩
  · cases s <;> cases e <;> exact ⟨_, rfl⟩

/-- Every summary accessor call reaches client_request and therefore fails
with the AttributeError on self.handler, with zero network calls. -/
theorem OuraClient.summary_fetch_attr_error (resource : String) (t : TransportOutcome)
    (s e d : Option String) :
    OuraClient.summary_fetch resource t s e d =
      (.error (.attributeError "OuraClient object has no attribute handler"), 0) := by
  obtain ⟨p, hp⟩ := OuraClient.summary_route_ok resource s e d
  unfold OuraClient.summary_fetch
  rw [hp]
  exact OuraClient.client_request_attr_error t p.1 p.2

/-- C1 counterexample: a completed response with status 500 and a body that is
not valid JSON does not fail with the ApiError message carrying 500 and the
reason phrase; it fails with the Bad JSON in response error instead. -/
theorem C1_counterexample :
    OuraClient.request (.ok ⟨500, "Internal Server Error", "not json", none⟩) =
      .error (.ouraPyException "Bad JSON in response") ∧
    PyError.ouraPyException "Bad JSON in response" ≠
      PyError.ouraPyException "500: Internal Server Error" :=
  ⟨rfl, by decide⟩

/-- C1 amended: for a status code outside the closed range 200..299, the
request fails with ApiError carrying the code and reason phrase provided the
body parses as JSON; when the body is not valid JSON the failure is instead
the BadResponse error, which carries neither the code nor the reason. Both
the OuraClient and the RequestManager pipelines behave this way. -/
theorem C1_theorem (c : Nat) (reason text : String) (v : JsonValue)
    (h : c < 200 ∨ 299 < c) :
    OuraClient.request (.ok ⟨c, reason, text, some v⟩) =
      .error (.ouraPyException (toString c ++ ": " ++ reason)) ∧
    RequestManager.request (.ok ⟨c, reason, text, some v⟩) =
      .error (.ouraPyException (toString c ++ ": " ++ reason)) ∧
    OuraClient.request (.ok ⟨c, reason, text, none⟩) =
      .error (.ouraPyException "Bad JSON in response") ∧
    RequestManager.request (.ok ⟨c, reason, text, none⟩) =
      .error (.ouraPyException "Bad JSON in response") := by
  have hn : ¬ (299 ≥ c ∧ c ≥ 200) := by omega
  refine ⟨?_, ?_, rfl, rfl⟩ <;>
    · simp only [OuraClient.request, RequestManager.request]
      rw [if_neg hn]

/-- C1 witness at status 404 with a JSON body. -/
theorem C1_witness :
    OuraClient.request (.ok ⟨404, "Not Found", "x", some (.obj [("detail", .str "x")])⟩) =
      .error (.ouraPyException (toString 404 ++ ": " ++ "Not Found")) ∧
    RequestManager.request (.ok ⟨404, "Not Found", "x", some (.obj [("detail", .str "x")])⟩) =
      .error (.ouraPyException (toString 404 ++ ": " ++ "Not Found")) ∧
    OuraClient.request (.ok ⟨404, "Not Found", "x", none⟩) =
      .error (.ouraPyException "Bad JSON in response") ∧
    RequestManager.request (.ok ⟨404, "Not Found", "x", none⟩) =
      .error (.ouraPyException "Bad JSON in response") :=
  C1_theorem 404 "Not Found" "x" (.obj [("detail", .str "x")]) (Or.inr (by omega))

/-- C2: every summary accessor and get_ring_config fails before issuing any
network request (zero network calls), with the AttributeError raised by
reading self.handler in client_request, for any combination of start_date,
end_date and document_id; the constructor assigns no attribute named handler
(only _handler), and make_request declares no params keyword parameter, so
the success branch of client_request is unreachable. -/
theorem C2_theorem :
    (∀ resource transport s e d, OuraClient.summary_fetch resource transport s e d =
      (.error (.attributeError "OuraClient object has no attribute handler"), 0)) ∧
    (∀ transport s e d, OuraClient.get_daily_sleep transport s e d =
      (.error (.attributeError "OuraClient object has no attribute handler"), 0)) ∧
    (∀ transport s e d, OuraClient.get_daily_activity transport s e d =
      (.error (.attributeError "OuraClient object has no attribute handler"), 0)) ∧
    (∀ transport s e d, OuraClient.get_daily_readiness transport s e d =
      (.error (.attributeError "OuraClient object has no attribute handler"), 0)) ∧
    (∀ transport, OuraClient.get_ring_config transport =
      (.error (.attributeError "OuraClient object has no attribute handler"), 0)) ∧
    "handler" ∉ OuraClient.instance_attribute_names ∧
    "params" ∉ PersonalTokenRequestHandler.make_request_keyword_names := by
  refine ⟨OuraClient.summary_fetch_attr_error, ?_, ?_, ?_, ?_, by decide, by decide⟩
  · exact fun t s e d => OuraClient.summary_fetch_attr_error "daily_sleep" t s e d
  · exact fun t s e d => OuraClient.summary_fetch_attr_error "daily_activity" t s e d
  · exact fun t s e d => OuraClient.summary_fetch_attr_error "daily_readiness" t s e d
  · exact fun t => OuraClient.client_request_attr_error t
      (OuraClient.URL_BASE ++ "ring_configuration") []

/-- C3 counterexample: with start 2025-02-12 after end 2025-02-11,
build_start_end_params returns normally with both raw strings (no
InvalidDateRange failure exists in the code), and the subsequent accessor
call fails only with the unrelated AttributeError from client_request,
performing zero network calls. -/
theorem C3_counterexample :
    OuraClient.build_start_end_params (some "2025-02-12") (some "2025-02-11") =
      .ok [("start_date", "2025-02-12"), ("end_date", "2025-02-11")] ∧
    OuraClient.get_daily_sleep (.exn "no request was sent")
        (some "2025-02-12") (some "2025-02-11") none =
      (.error (.attributeError "OuraClient object has no attribute handler"), 0) :=
  ⟨rfl, rfl⟩

/-- C3 amended: the date-range branch performs no chronological validation:
for any strings start and end (inverted or not) it builds the params mapping
with both raw strings unchanged and routes to the range URL; no
InvalidDateRange failure exists. -/
theorem C3_theorem :
    (∀ s e : String, OuraClient.build_start_end_params (some s) (some e) =
      .ok [("start_date", s), ("end_date", e)]) ∧
    (∀ (resource s e : String),
      OuraClient.summary_route resource (some s) (some e) none =
        .ok (OuraClient.URL_BASE ++ resource, [("start_date", s), ("end_date", e)])) :=
  ⟨fun _ _ => rfl, fun _ _ _ => rfl⟩

/-- C4 counterexample: with start, end and token all omitted, no defaulting to
the current date happens: the params mapping is empty, so it contains neither
a start_date nor an end_date entry. -/
theorem C4_counterexample :
    OuraClient.build_start_end_params none none = .ok [] ∧
    ([] : List (String × String)).lookup "start_date" = none ∧
    ([] : List (String × String)).lookup "end_date" = none :=
  ⟨rfl, rfl, rfl⟩

/-- C4 amended: with no arguments the summary route targets the plain
resource URL with an empty params mapping — no end = today and no
start = today minus one day defaulting occurs, and the range request would
carry no date query parameters at all. -/
theorem C4_theorem (resource : String) :
    OuraClient.summary_route resource none none none =
      .ok (OuraClient.URL_BASE ++ resource, []) := rfl

/-- C5: a completed response whose body is not valid JSON fails with the Bad
JSON in response error regardless of status code (including 200..299), in
both pipelines; a transport failure fails with the Error making request
error; the two failures carry distinct messages, so the caller can
distinguish them. -/
theorem C5_theorem :
    (∀ (c : Nat) (reason text : String),
      OuraClient.request (.ok ⟨c, reason, text, none⟩) =
        .error (.ouraPyException "Bad JSON in response") ∧
      RequestManager.request (.ok ⟨c, reason, text, none⟩) =
        .error (.ouraPyException "Bad JSON in response")) ∧
    (∀ msg, OuraClient.request (.exn msg) =
        .error (.ouraPyException "Error making request") ∧
      RequestManager.request (.exn msg) =
        .error (.ouraPyException "Error making request")) ∧
    PyError.ouraPyException "Bad JSON in response" ≠
      PyError.ouraPyException "Error making request" :=
  ⟨fun _ _ _ => ⟨rfl, rfl⟩, fun _ => ⟨rfl, rfl⟩, by decide⟩

/-- C6 counterexample: a transport exception raised during make_request
propagates to the caller as the transport-library exception itself
(requestsException), after one attempted network call; it is not re-raised
as the library-level wrapping error. -/
theorem C6_counterexample :
    PersonalTokenRequestHandler.make_request
        "https://api.ouraring.com/v2/usercollection/sleep" "GET"
        (.exn "connection refused") =
      { result := .error (.requestsException "connection refused"), network_calls := 1 } ∧
    PyError.requestsException "connection refused" ≠
      PyError.ouraPyException "Error making request" :=
  ⟨rfl, by decide⟩

/-- C6 amended: make_request contains no exception handling: for every
non-empty url and supported method, a transport-level exception raised by the
underlying call propagates unchanged to the caller (no RequestFailed-style
wrapping happens in the adapter; only the orchestrator pipeline wraps
transport errors). -/
theorem C6_theorem (url method msg : String) (hu : url ≠ "")
    (hm : method = "GET" ∨ method = "POST") :
    PersonalTokenRequestHandler.make_request url method (.exn msg) =
      { result := .error (.requestsException msg), network_calls := 1 } := by
  have hmem : method ∈ (["GET", "POST"] : List String) := by
    rcases hm with h | h <;> simp [h]
  unfold PersonalTokenRequestHandler.make_request
  rw [if_neg hu, if_neg (not_not_intro hmem)]

/-- C6 witness at a POST call failing with a timeout. -/
theorem C6_witness :
    PersonalTokenRequestHandler.make_request
        "https://api.ouraring.com/v2/usercollection/workout" "POST" (.exn "timeout") =
      { result := .error (.requestsException "timeout"), network_calls := 1 } :=
  C6_theorem _ _ _ (by decide) (Or.inr rfl)

/-- C7 counterexample: a 200 response decoding to the empty JSON object does
not keep the payload unchanged: the Result constructor replaces the falsy
empty dict by an empty list. -/
theorem C7_counterexample :
    OuraClient.request (.ok ⟨200, "OK", "empty object body", some (.obj [])⟩) =
      .ok { status_code := 200, message := "OK", data := .arr [] } ∧
    JsonValue.arr [] ≠ JsonValue.obj [] :=
  ⟨rfl, fun h => JsonValue.noConfusion h⟩

/-- C7 amended: for a status code in 200..299 with body decoding to v, the
pipeline returns a Result with that status code and reason phrase, and with
data equal to v when v is truthy; when v is falsy (empty object, empty array,
null, zero, empty string, false) data is the empty list instead — equal to v
only in the empty-array case. -/
theorem C7_theorem (c : Nat) (reason text : String) (v : JsonValue)
    (h1 : 200 ≤ c) (h2 : c ≤ 299) :
    OuraClient.request (.ok ⟨c, reason, text, some v⟩) =
      .ok { status_code := Int.ofNat c, message := reason,
            data := if v.truthy then v else .arr [] } := by
  simp only [OuraClient.request]
  rw [if_pos ⟨h2, h1⟩]
  rfl

/-- C7 witness at status 201 with a truthy payload. -/
theorem C7_witness :
    OuraClient.request (.ok ⟨201, "Created", "body", some (.intNum 5)⟩) =
      .ok { status_code := Int.ofNat 201, message := "Created",
            data := if (JsonValue.intNum 5).truthy then .intNum 5 else .arr [] } :=
  C7_theorem 201 "Created" "body" (.intNum 5) (by omega) (by omega)

/-- C8: evaluating get_personal_info against the stub transport of the
end-to-end scenario (status 200 with the documented personal-info body): the
call returns None (ok none) although the PersonalInfo constructed and printed
on the way has email a@b.com — the function body lacks a return statement,
contradicting its own PersonalInfo return annotation. -/
theorem C8_bug :
    OuraClient.get_personal_info (.ok personalInfoStubResponse) = .ok none ∧
    (PersonalInfo.ofKwargs personalInfoStubFields).map PersonalInfo.email =
      .ok "a@b.com" :=
  ⟨rfl, rfl⟩

/-- C9: for an empty url, or a method other than GET and POST, make_request
fails before any network activity (zero network calls) with one of the two
argument errors (TypeError URL is required, ValueError on the method), both
of which are InvalidArgument classifications. -/
theorem C9_theorem (url method : String) (transport : TransportOutcome)
    (h : url = "" ∨ method ∉ (["GET", "POST"] : List String)) :
    ((PersonalTokenRequestHandler.make_request url method transport).result =
        .error (.typeError "URL is required") ∨
      (PersonalTokenRequestHandler.make_request url method transport).result =
        .error (.valueError "Method must be GET or POST")) ∧
    (PyError.typeError "URL is required").invalidArgument = true ∧
    (PyError.valueError "Method must be GET or POST").invalidArgument = true ∧
    (PersonalTokenRequestHandler.make_request url method transport).network_calls = 0 := by
  unfold PersonalTokenRequestHandler.make_request
  by_cases hu : url = ""
  · rw [if_pos hu]
    exact ⟨Or.inl rfl, rfl, rfl, rfl⟩
  · rcases h with h | h
    · exact absurd h hu
    · rw [if_neg hu, if_pos h]
      exact ⟨Or.inr rfl, rfl, rfl, rfl⟩

/-- C9 witness: one application with an empty url and one with an unsupported
method, both against a live transport stub, showing zero network calls. -/
theorem C9_witness :
    (((PersonalTokenRequestHandler.make_request "" "GET" (.exn "dns failure")).result =
        .error (.typeError "URL is required") ∨
      (PersonalTokenRequestHandler.make_request "" "GET" (.exn "dns failure")).result =
        .error (.valueError "Method must be GET or POST")) ∧
      (PyError.typeError "URL is required").invalidArgument = true ∧
      (PyError.valueError "Method must be GET or POST").invalidArgument = true ∧
      (PersonalTokenRequestHandler.make_request "" "GET" (.exn "dns failure")).network_calls = 0) ∧
    (((PersonalTokenRequestHandler.make_request "https://api.ouraring.com" "PUT"
          (.ok ⟨200, "OK", "body", none⟩)).result =
        .error (.typeError "URL is required") ∨
      (PersonalTokenRequestHandler.make_request "https://api.ouraring.com" "PUT"
          (.ok ⟨200, "OK", "body", none⟩)).result =
        .error (.valueError "Method must be GET or POST")) ∧
      (PyError.typeError "URL is required").invalidArgument = true ∧
      (PyError.valueError "Method must be GET or POST").invalidArgument = true ∧
      (PersonalTokenRequestHandler.make_request "https://api.ouraring.com" "PUT"
          (.ok ⟨200, "OK", "body", none⟩)).network_calls = 0) :=
  ⟨ C9_theorem "" "GET" (.exn "dns failure") (Or.inl rfl),
   C9_theorem "https://api.ouraring.com" "PUT" (.ok ⟨200, "OK", "body", none⟩)
     (Or.inr (by decide))⟩

/-- C10 counterexample: with both a non-empty pagination token and a date
pair, and a transport that would answer successfully, the accessor call
performs zero network calls and fails with the AttributeError from
client_request — no request targeting the token URL ever results. -/
theorem C10_counterexample :
    OuraClient.get_daily_sleep
        (.ok ⟨200, "OK", "ready", some (.obj [("data", .arr [])])⟩)
        (some "2025-02-10") (some "2025-02-11") (some "tok123") =
      (.error (.attributeError "OuraClient object has no attribute handler"), 0) := rfl

/-- C10 amended: given a non-empty token together with a date pair, the token
branch is taken unconditionally: the url and params handed to client_request
are resource/token and the empty mapping (no start_date or end_date entries),
and no validation error is raised for supplying both; the request itself
never materializes because client_request fails on the missing handler
attribute. -/
theorem C10_theorem (resource s e tok : String) (h : tok ≠ "") :
    OuraClient.summary_route resource (some s) (some e) (some tok) =
      .ok (OuraClient.URL_BASE ++ resource ++ "/" ++ tok, []) := by
  unfold OuraClient.summary_route
  rw [if_pos (by simp [pyTruthyOptStr, h])]
  rfl

/-- C10 witness at the daily_sleep resource with token tok123. -/
theorem C10_witness :
    OuraClient.summary_route "daily_sleep" (some "2025-02-10") (some "2025-02-11")
        (some "tok123") =
      .ok (OuraClient.URL_BASE ++ "daily_sleep/" ++ "tok123", []) :=
  C10_theorem "daily_sleep" "2025-02-10" "2025-02-11" "tok123" (by decide)
